import Mathlib

/-!
Verification of the Revolution Idle Zodiac Calculator (`zodiac_calculator.py`)
against its natural-language specification.

The Python program is shallowly embedded over exact real arithmetic:

* the ten rarity tiers become the inductive type `Tier`;
* the weight table `calculate_rarity_weights` becomes a pure function
  `ℝ → Tier → ℝ`, with Python's float `**` on positive bases rendered as
  `Real.rpow`;
* the `try/except` fail-safe of the weight table is modelled separately by
  `calculate_rarity_weightsE`, a computation in the `Except` monad that is
  parametric in a power primitive `pw` which may fail (as Python's `**` may
  raise `OverflowError`);
* the optional input fields of the `ZodiacCalculator` class become a
  structure of `Option ℝ` fields, and each basic formula returns `none`
  exactly where the Python method returns `None`;
* Python's float `**` applied to a *negative* base with a non-integral
  exponent returns a `complex` number (it does not raise); this is modelled
  faithfully by `pypow`, whose result type `PyNum` distinguishes real from
  complex results.
-/

open Real

namespace Zodiac

/-- The ten fixed rarity tiers, in the order the Python source inserts them
into the `weights` dictionary. -/
inductive Tier where
  | Garbage
  | Common
  | Uncommon
  | Rare
  | Epic
  | Legendary
  | Mythic
  | Godly
  | Divine
  | Immortal
deriving DecidableEq

/-- A mapping from rarity tier to real value (the `Dict[str, float]` of the
source, with the ten fixed keys). -/
def RarityWeights : Type := Tier → ℝ

/-- Embedding of `ZodiacCalculator.calculate_rarity_weights` (the body of the
`try:` block), over exact real arithmetic.  Each tier's weight is the
if/elif/else chain of the source; `a ** b` on the positive literal bases is
`Real.rpow`. -/
noncomputable def calculate_rarity_weights (zodiac_luck : ℝ) : RarityWeights := fun t =>
  match t with
  | .Garbage =>
      if 1 ≤ zodiac_luck ∧ zodiac_luck < 2 then
        5 * (0.8 : ℝ) ^ (zodiac_luck - 1)
      else if 2 ≤ zodiac_luck ∧ zodiac_luck < 3 then
        5 * (0.8 : ℝ) ^ (zodiac_luck - 1) * (0.4 : ℝ) ^ (zodiac_luck - 2)
      else 0
  | .Common =>
      if 1 ≤ zodiac_luck ∧ zodiac_luck < 2 then
        15
      else if 2 ≤ zodiac_luck ∧ zodiac_luck < 5 then
        15 * (0.45 : ℝ) ^ (zodiac_luck - 2)
      else 0
  | .Uncommon =>
      if 1 ≤ zodiac_luck ∧ zodiac_luck < 3 then
        20 * (1.5 : ℝ) ^ (zodiac_luck - 1) - 12
      else if 3 ≤ zodiac_luck ∧ zodiac_luck < 8 then
        (20 * (1.5 : ℝ) ^ (zodiac_luck - 1) - 12) * (0.5 : ℝ) ^ (zodiac_luck - 3)
      else 0
  | .Rare =>
      if 1 ≤ zodiac_luck ∧ zodiac_luck < 5 then
        30 * (1.45 : ℝ) ^ (zodiac_luck - 1) - 28
      else if 5 ≤ zodiac_luck ∧ zodiac_luck < 12 then
        (30 * (1.45 : ℝ) ^ (zodiac_luck - 1) - 28) * (0.55 : ℝ) ^ (zodiac_luck - 5)
      else 0
  | .Epic =>
      if 1 ≤ zodiac_luck ∧ zodiac_luck < 8 then
        max 0 (45 * (1.4 : ℝ) ^ (zodiac_luck - 2) - 50)
      else if 8 ≤ zodiac_luck ∧ zodiac_luck < 20 then
        max 0 (45 * (1.4 : ℝ) ^ (zodiac_luck - 2) - 50) * (0.6 : ℝ) ^ (zodiac_luck - 8)
      else 0
  | .Legendary =>
      if 1 ≤ zodiac_luck ∧ zodiac_luck < 12 then
        max 0 (80 * (1.36 : ℝ) ^ (zodiac_luck - 3) - 100)
      else if 12 ≤ zodiac_luck ∧ zodiac_luck < 30 then
        max 0 (80 * (1.36 : ℝ) ^ (zodiac_luck - 3) - 100) * (0.64 : ℝ) ^ (zodiac_luck - 12)
      else 0
  | .Mythic =>
      if 1 ≤ zodiac_luck ∧ zodiac_luck < 20 then
        max 0 (120 * (1.3 : ℝ) ^ (zodiac_luck - 5) - 140)
      else if 20 ≤ zodiac_luck ∧ zodiac_luck < 50 then
        max 0 (120 * (1.3 : ℝ) ^ (zodiac_luck - 5) - 140) * (0.67 : ℝ) ^ (zodiac_luck - 20)
      else 0
  | .Godly =>
      if 1 ≤ zodiac_luck ∧ zodiac_luck < 30 then
        max 0 (150 * (1.25 : ℝ) ^ (zodiac_luck - 8) - 200)
      else if 30 ≤ zodiac_luck ∧ zodiac_luck < 60 then
        max 0 (150 * (1.25 : ℝ) ^ (zodiac_luck - 8) - 200) * (0.7 : ℝ) ^ (zodiac_luck - 30)
      else 0
  | .Divine =>
      if 1 ≤ zodiac_luck ∧ zodiac_luck < 40 then
        max 0 (200 * (1.2 : ℝ) ^ (zodiac_luck - 12) - 300)
      else if 40 ≤ zodiac_luck ∧ zodiac_luck < 50 then
        max 0 (200 * (1.2 : ℝ) ^ (zodiac_luck - 12) - 300) * (0.92 : ℝ) ^ (zodiac_luck - 40)
      else if 50 ≤ zodiac_luck ∧ zodiac_luck < 70 then
        max 0 (200 * (1.2 : ℝ) ^ (zodiac_luck - 12) - 300) * (0.92 : ℝ) ^ (zodiac_luck - 40)
          * (0.75 : ℝ) ^ (zodiac_luck - 50)
      else 0
  | .Immortal =>
      max 0 (300 * (1.1 : ℝ) ^ (zodiac_luck - 20) - 500)

/-- One row `| Tier | [a,b) | f |` of the spec's §4.3 table: the formula `f`
on the half-open range `[a, b)` and `0` outside it. -/
noncomputable def specRow (a b : ℝ) (f : ℝ → ℝ) (L : ℝ) : ℝ :=
  if a ≤ L ∧ L < b then f L else 0

/-- The weight table exactly as the table of spec §4.3 presents it: each tier
is the sum of its listed half-open-range rows (the ranges are disjoint, so at
most one row is non-zero), and `Immortal` is a single formula applying to all
`L` with no range gating. -/
noncomputable def specTableWeight (L : ℝ) : RarityWeights := fun t =>
  match t with
  | .Garbage =>
      specRow 1 2 (fun l => 5 * (0.8 : ℝ) ^ (l - 1)) L
        + specRow 2 3 (fun l => 5 * (0.8 : ℝ) ^ (l - 1) * (0.4 : ℝ) ^ (l - 2)) L
  | .Common =>
      specRow 1 2 (fun _ => 15) L
        + specRow 2 5 (fun l => 15 * (0.45 : ℝ) ^ (l - 2)) L
  | .Uncommon =>
      specRow 1 3 (fun l => 20 * (1.5 : ℝ) ^ (l - 1) - 12) L
        + specRow 3 8 (fun l => (20 * (1.5 : ℝ) ^ (l - 1) - 12) * (0.5 : ℝ) ^ (l - 3)) L
  | .Rare =>
      specRow 1 5 (fun l => 30 * (1.45 : ℝ) ^ (l - 1) - 28) L
        + specRow 5 12 (fun l => (30 * (1.45 : ℝ) ^ (l - 1) - 28) * (0.55 : ℝ) ^ (l - 5)) L
  | .Epic =>
      specRow 1 8 (fun l => max 0 (45 * (1.4 : ℝ) ^ (l - 2) - 50)) L
        + specRow 8 20 (fun l => max 0 (45 * (1.4 : ℝ) ^ (l - 2) - 50) * (0.6 : ℝ) ^ (l - 8)) L
  | .Legendary =>
      specRow 1 12 (fun l => max 0 (80 * (1.36 : ℝ) ^ (l - 3) - 100)) L
        + specRow 12 30
            (fun l => max 0 (80 * (1.36 : ℝ) ^ (l - 3) - 100) * (0.64 : ℝ) ^ (l - 12)) L
  | .Mythic =>
      specRow 1 20 (fun l => max 0 (120 * (1.3 : ℝ) ^ (l - 5) - 140)) L
        + specRow 20 50
            (fun l => max 0 (120 * (1.3 : ℝ) ^ (l - 5) - 140) * (0.67 : ℝ) ^ (l - 20)) L
  | .Godly =>
      specRow 1 30 (fun l => max 0 (150 * (1.25 : ℝ) ^ (l - 8) - 200)) L
        + specRow 30 60
            (fun l => max 0 (150 * (1.25 : ℝ) ^ (l - 8) - 200) * (0.7 : ℝ) ^ (l - 30)) L
  | .Divine =>
      specRow 1 40 (fun l => max 0 (200 * (1.2 : ℝ) ^ (l - 12) - 300)) L
        + specRow 40 50
            (fun l => max 0 (200 * (1.2 : ℝ) ^ (l - 12) - 300) * (0.92 : ℝ) ^ (l - 40)) L
        + specRow 50 70
            (fun l => max 0 (200 * (1.2 : ℝ) ^ (l - 12) - 300) * (0.92 : ℝ) ^ (l - 40)
              * (0.75 : ℝ) ^ (l - 50)) L
  | .Immortal =>
      max 0 (300 * (1.1 : ℝ) ^ (L - 20) - 500)

/-- A tier computation of `calculate_rarity_weights` that may fail: the same
if/elif/else chains, but every application of Python's `**` goes through a
power primitive `pw` which may raise (in Python: `OverflowError`).  This is
the body of the `try:` block of the source, in the `Except` monad. -/
noncomputable def calculate_rarity_weightsE (pw : ℝ → ℝ → Except Unit ℝ) (zodiac_luck : ℝ) :
    Except Unit RarityWeights := do
  let garbage ←
    if 1 ≤ zodiac_luck ∧ zodiac_luck < 2 then do
      let p ← pw 0.8 (zodiac_luck - 1)
      pure (5 * p)
    else if 2 ≤ zodiac_luck ∧ zodiac_luck < 3 then do
      let p ← pw 0.8 (zodiac_luck - 1)
      let q ← pw 0.4 (zodiac_luck - 2)
      pure (5 * p * q)
    else pure 0
  let common ←
    if 1 ≤ zodiac_luck ∧ zodiac_luck < 2 then pure 15
    else if 2 ≤ zodiac_luck ∧ zodiac_luck < 5 then do
      let p ← pw 0.45 (zodiac_luck - 2)
      pure (15 * p)
    else pure 0
  let uncommon ←
    if 1 ≤ zodiac_luck ∧ zodiac_luck < 3 then do
      let p ← pw 1.5 (zodiac_luck - 1)
      pure (20 * p - 12)
    else if 3 ≤ zodiac_luck ∧ zodiac_luck < 8 then do
      let p ← pw 1.5 (zodiac_luck - 1)
      let q ← pw 0.5 (zodiac_luck - 3)
      pure ((20 * p - 12) * q)
    else pure 0
  let rare ←
    if 1 ≤ zodiac_luck ∧ zodiac_luck < 5 then do
      let p ← pw 1.45 (zodiac_luck - 1)
      pure (30 * p - 28)
    else if 5 ≤ zodiac_luck ∧ zodiac_luck < 12 then do
      let p ← pw 1.45 (zodiac_luck - 1)
      let q ← pw 0.55 (zodiac_luck - 5)
      pure ((30 * p - 28) * q)
    else pure 0
  let epic ←
    if 1 ≤ zodiac_luck ∧ zodiac_luck < 8 then do
      let p ← pw 1.4 (zodiac_luck - 2)
      pure (max 0 (45 * p - 50))
    else if 8 ≤ zodiac_luck ∧ zodiac_luck < 20 then do
      let p ← pw 1.4 (zodiac_luck - 2)
      let q ← pw 0.6 (zodiac_luck - 8)
      pure (max 0 (45 * p - 50) * q)
    else pure 0
  let legendary ←
    if 1 ≤ zodiac_luck ∧ zodiac_luck < 12 then do
      let p ← pw 1.36 (zodiac_luck - 3)
      pure (max 0 (80 * p - 100))
    else if 12 ≤ zodiac_luck ∧ zodiac_luck < 30 then do
      let p ← pw 1.36 (zodiac_luck - 3)
      let q ← pw 0.64 (zodiac_luck - 12)
      pure (max 0 (80 * p - 100) * q)
    else pure 0
  let mythic ←
    if 1 ≤ zodiac_luck ∧ zodiac_luck < 20 then do
      let p ← pw 1.3 (zodiac_luck - 5)
      pure (max 0 (120 * p - 140))
    else if 20 ≤ zodiac_luck ∧ zodiac_luck < 50 then do
      let p ← pw 1.3 (zodiac_luck - 5)
      let q ← pw 0.67 (zodiac_luck - 20)
      pure (max 0 (120 * p - 140) * q)
    else pure 0
  let godly ←
    if 1 ≤ zodiac_luck ∧ zodiac_luck < 30 then do
      let p ← pw 1.25 (zodiac_luck - 8)
      pure (max 0 (150 * p - 200))
    else if 30 ≤ zodiac_luck ∧ zodiac_luck < 60 then do
      let p ← pw 1.25 (zodiac_luck - 8)
      let q ← pw 0.7 (zodiac_luck - 30)
      pure (max 0 (150 * p - 200) * q)
    else pure 0
  let divine ←
    if 1 ≤ zodiac_luck ∧ zodiac_luck < 40 then do
      let p ← pw 1.2 (zodiac_luck - 12)
      pure (max 0 (200 * p - 300))
    else if 40 ≤ zodiac_luck ∧ zodiac_luck < 50 then do
      let p ← pw 1.2 (zodiac_luck - 12)
      let q ← pw 0.92 (zodiac_luck - 40)
      pure (max 0 (200 * p - 300) * q)
    else if 50 ≤ zodiac_luck ∧ zodiac_luck < 70 then do
      let p ← pw 1.2 (zodiac_luck - 12)
      let q ← pw 0.92 (zodiac_luck - 40)
      let s ← pw 0.75 (zodiac_luck - 50)
      pure (max 0 (200 * p - 300) * q * s)
    else pure 0
  let immortal ←
    do
      let p ← pw 1.1 (zodiac_luck - 20)
      pure (max 0 (300 * p - 500))
  pure fun t =>
    match t with
    | .Garbage => garbage
    | .Common => common
    | .Uncommon => uncommon
    | .Rare => rare
    | .Epic => epic
    | .Legendary => legendary
    | .Mythic => mythic
    | .Godly => godly
    | .Divine => divine
    | .Immortal => immortal

/-- The all-zero weight dictionary built by the `except` handler of
`calculate_rarity_weights`. -/
def zeroWeights : RarityWeights := fun _ => 0

/-- The whole `calculate_rarity_weights` method including its `try/except`:
if any power primitive raised, the entire weight set resets to all-zero. -/
noncomputable def calculate_rarity_weightsPy (pw : ℝ → ℝ → Except Unit ℝ)
    (zodiac_luck : ℝ) : RarityWeights :=
  match calculate_rarity_weightsE pw zodiac_luck with
  | .ok w => w
  | .error _ => zeroWeights

/-- The exact-real power primitive: `**` never fails under exact real
arithmetic on a positive base. -/
noncomputable def exactPow (b e : ℝ) : Except Unit ℝ := .ok (b ^ e)

/-- The `sum(weights.values())` of the source: the dictionary always carries
exactly the ten fixed tiers, in insertion order. -/
noncomputable def totalWeight (w : RarityWeights) : ℝ :=
  w .Garbage + w .Common + w .Uncommon + w .Rare + w .Epic
    + w .Legendary + w .Mythic + w .Godly + w .Divine + w .Immortal

/-- Embedding of `ZodiacCalculator.calculate_rarity_chances`: normalize the
weights to percentages, or return all-zero chances when the total weight is
exactly zero. -/
noncomputable def calculate_rarity_chances (weights : RarityWeights) : RarityWeights :=
  if totalWeight weights = 0 then fun _ => 0
  else fun t => weights t / totalWeight weights * 100

/-- The value a Python float expression can take in this program: a real
number (a `float`) or a complex number.  Python 3's `float.__pow__` delegates
to complex exponentiation when the base is negative and the exponent is not
an integer, so arithmetic downstream of `**` can silently turn complex. -/
inductive PyNum where
  | r (v : ℝ)
  | c (v : ℂ)

/-- Python multiplication on such values: once complex, always complex. -/
noncomputable def PyNum.mul : PyNum → PyNum → PyNum
  | .r a, .r b => .r (a * b)
  | .r a, .c b => .c (a * b)
  | .c a, .r b => .c (a * (b : ℂ))
  | .c a, .c b => .c (a * b)

open Classical in
/-- Python 3's float `**`: for a negative base and a non-integral exponent the
result is the principal complex power (no exception is raised); otherwise the
result is the real power. -/
noncomputable def pypow (b e : ℝ) : PyNum :=
  if b < 0 ∧ ¬∃ n : ℤ, e = (n : ℝ) then .c ((b : ℂ) ^ (e : ℂ))
  else .r (b ^ e)

/-- The five optional input fields of the `ZodiacCalculator` class. -/
structure ZodiacCalculator where
  zodiac_rarity : Option ℝ
  zodiac_quality : Option ℝ
  zodiac_level : Option ℝ
  luck : Option ℝ
  immo_number : Option ℝ

/-- Embedding of `ZodiacCalculator.calculate_zodiac_score`: `None` when
rarity, quality or level is absent.  All bases of `**` on this path are
positive (`1.125`, and `(l-90)/10 ≥ 1` under the guard `l ≥ 100`) and
`level ** 2` has an integral exponent, so the result is always real. -/
noncomputable def calculate_zodiac_score (c : ZodiacCalculator) : Option ℝ :=
  match c.zodiac_rarity, c.zodiac_quality, c.zodiac_level with
  | some r, some q, some l =>
      let rarity_mult : ℝ := if 8 < r then 2 else 1
      let level_mult : ℝ := if 100 ≤ l then ((l - 90) / 10) ^ (2.5 : ℝ) else 1
      some ((1.125 : ℝ) ^ r * q * (9 + l ^ 2) * rarity_mult * level_mult)
  | _, _, _ => none

/-- Embedding of `ZodiacCalculator.calculate_zodiac_sale_price`: `None` when
rarity, quality or level is absent; otherwise
`(base_calc ** 0.75) * (1.1 ** rarity)` where
`base_calc = (1.125**r * q * (9 + l**2) * rarity_mult * level_mult) / 10`.
`base_calc` can be negative (e.g. for negative quality), in which case
Python's `** 0.75` yields a complex number, modelled by `pypow`. -/
noncomputable def calculate_zodiac_sale_price (c : ZodiacCalculator) : Option PyNum :=
  match c.zodiac_rarity, c.zodiac_quality, c.zodiac_level with
  | some r, some q, some l =>
      let rarity_mult : ℝ := if 8 < r then 2 else 1
      let level_mult : ℝ := if 100 ≤ l then ((l - 90) / 10) ^ (2.5 : ℝ) else 1
      let base_calc : ℝ := (1.125 : ℝ) ^ r * q * (9 + l ^ 2) * rarity_mult * level_mult / 10
      some ((pypow base_calc 0.75).mul (.r ((1.1 : ℝ) ^ r)))
  | _, _, _ => none

/-- Embedding of `ZodiacCalculator.calculate_zodiac_enhance_price`: `None`
when the sale price is `None` or quality is absent, and `None` (a caught
`ValueError` from `math.log10`) when `1 + quality ≤ 0`; otherwise
`sell_cost * 2 * 1.3 ** log10(1 + quality)`. -/
noncomputable def calculate_zodiac_enhance_price (c : ZodiacCalculator) : Option PyNum :=
  match calculate_zodiac_sale_price c, c.zodiac_quality with
  | some sell_cost, some q =>
      if 0 < 1 + q then
        some ((sell_cost.mul (.r 2)).mul (.r ((1.3 : ℝ) ^ Real.logb 10 (1 + q))))
      else none
  | _, _ => none

/-- Embedding of `ZodiacCalculator.calculate_zodiac_enhance_chance`: `None`
when quality is absent, and `None` (a caught `ValueError` from `math.log10`)
when `1 + quality ≤ 0`; otherwise `0.9 ** (log10(1 + quality) ** 2) * 100`. -/
noncomputable def calculate_zodiac_enhance_chance (c : ZodiacCalculator) : Option ℝ :=
  match c.zodiac_quality with
  | some q =>
      if 0 < 1 + q then some ((0.9 : ℝ) ^ (Real.logb 10 (1 + q) ^ 2) * 100)
      else none
  | none => none

/-- Embedding of `ZodiacCalculator.calculate_zodiac_luck`: `None` when luck is
absent; the identity below `18`, and `(luck - 18) ** 0.3 * 18` (a real power
of a non-negative base) from `18` on. -/
noncomputable def calculate_zodiac_luck (c : ZodiacCalculator) : Option ℝ :=
  match c.luck with
  | some l => some (if l < 18 then l else (l - 18) ^ (0.3 : ℝ) * 18)
  | none => none

/-- A two-range if/elif/else chain equals the sum of the two corresponding
spec-table rows: the ranges `[a,b)` and `[b,c)` are disjoint by construction. -/
lemma chain2_rows (L a b c x y : ℝ) :
    (if a ≤ L ∧ L < b then x else if b ≤ L ∧ L < c then y else 0)
      = (if a ≤ L ∧ L < b then x else 0) + (if b ≤ L ∧ L < c then y else 0) := by
  by_cases hA : a ≤ L ∧ L < b
  · have hB : ¬(b ≤ L ∧ L < c) := fun hB => absurd hB.1 (not_le.mpr hA.2)
    rw [if_pos hA, if_pos hA, if_neg hB]
    ring
  · rw [if_neg hA, if_neg hA]
    ring

/-- A three-range if/elif/elif/else chain equals the sum of the three
corresponding spec-table rows, provided the middle range is non-degenerate
(`b ≤ c`), which makes the three ranges pairwise disjoint. -/
lemma chain3_rows (L a b c d x y z : ℝ) (hbc : b ≤ c) :
    (if a ≤ L ∧ L < b then x
      else if b ≤ L ∧ L < c then y
      else if c ≤ L ∧ L < d then z
      else 0)
      = (if a ≤ L ∧ L < b then x else 0) + (if b ≤ L ∧ L < c then y else 0)
        + (if c ≤ L ∧ L < d then z else 0) := by
  by_cases hA : a ≤ L ∧ L < b
  · have hB : ¬(b ≤ L ∧ L < c) := fun hB => absurd hB.1 (not_le.mpr hA.2)
    have hC : ¬(c ≤ L ∧ L < d) :=
      fun hC => absurd hC.1 (not_le.mpr (lt_of_lt_of_le hA.2 hbc))
    rw [if_pos hA, if_pos hA, if_neg hB, if_neg hC]
    ring
  · rw [if_neg hA, if_neg hA]
    by_cases hB : b ≤ L ∧ L < c
    · have hC : ¬(c ≤ L ∧ L < d) := fun hC => absurd hC.1 (not_le.mpr hB.2)
      rw [if_pos hB, if_pos hB, if_neg hC]
      ring
    · rw [if_neg hB, if_neg hB]
      ring

/-- C1: for every real `zodiacLuck`, `calculate_rarity_weights` assigns each
of the ten tiers exactly the weight given by the piecewise table of spec
§4.3: each tier's listed half-open ranges with their formulas and `0` outside
them, three compounded ranges for Divine, and the ungated floored formula for
Immortal. -/
theorem claim_C1 (L : ℝ) (t : Tier) :
    calculate_rarity_weights L t = specTableWeight L t := by
  cases t <;> simp only [calculate_rarity_weights, specTableWeight, specRow]
  · exact chain2_rows L 1 2 3 _ _
  · exact chain2_rows L 1 2 5 _ _
  · exact chain2_rows L 1 3 8 _ _
  · exact chain2_rows L 1 5 12 _ _
  · exact chain2_rows L 1 8 20 _ _
  · exact chain2_rows L 1 12 30 _ _
  · exact chain2_rows L 1 20 50 _ _
  · exact chain2_rows L 1 30 60 _ _
  · exact chain3_rows L 1 40 50 70 _ _ _ (by norm_num)

/-- With a non-zero total, each chance is `weight / total * 100`. -/
lemma chances_formula {w : RarityWeights} (h : totalWeight w ≠ 0) (t : Tier) :
    calculate_rarity_chances w t = w t / totalWeight w * 100 := by
  simp [calculate_rarity_chances, h]

/-- With a zero total, every chance is reported as zero. -/
lemma chances_all_zero {w : RarityWeights} (h : totalWeight w = 0) :
    calculate_rarity_chances w = fun _ => 0 := by
  simp [calculate_rarity_chances, h]

/-- With a positive total weight, the ten chances sum to exactly `100`. -/
lemma chances_sum_100 {w : RarityWeights} (h : 0 < totalWeight w) :
    totalWeight (calculate_rarity_chances w) = 100 := by
  have h0 : totalWeight w ≠ 0 := ne_of_gt h
  have hc := chances_formula h0
  have h0' : w .Garbage + w .Common + w .Uncommon + w .Rare + w .Epic
      + w .Legendary + w .Mythic + w .Godly + w .Divine + w .Immortal ≠ 0 := h0
  simp only [totalWeight, hc] at h0' ⊢
  field_simp
  ring

/-- C2: `calculate_rarity_chances` returns `weight / total * 100` per tier
when the total weight is non-zero and all-zero chances when the total weight
is exactly zero; consequently the chances sum to `100` whenever the total is
positive and to `0` when it is zero. -/
theorem claim_C2 (w : RarityWeights) :
    (totalWeight w ≠ 0 → ∀ t, calculate_rarity_chances w t = w t / totalWeight w * 100)
    ∧ (totalWeight w = 0 → ∀ t, calculate_rarity_chances w t = 0)
    ∧ (0 < totalWeight w → totalWeight (calculate_rarity_chances w) = 100)
    ∧ (totalWeight w = 0 → totalWeight (calculate_rarity_chances w) = 0) := by
  refine ⟨fun h t => chances_formula h t, fun h t => ?_, fun h => chances_sum_100 h, fun h => ?_⟩
  · rw [chances_all_zero h]
  · rw [chances_all_zero h]
    simp [totalWeight]

/-- Witness for C2 at the constant weight mapping `1` (total `10`) and the
all-zero mapping (total `0`). -/
theorem claim_C2_witness :
    ((∀ t, calculate_rarity_chances (fun _ => 1) t = (1 : ℝ) / 10 * 100)
      ∧ totalWeight (calculate_rarity_chances (fun _ => 1)) = 100)
    ∧ ((∀ t, calculate_rarity_chances (fun _ => 0) t = 0)
      ∧ totalWeight (calculate_rarity_chances (fun _ => 0)) = 0) := by
  have h1 : totalWeight (fun _ => (1 : ℝ)) = 10 := by
    simp [totalWeight]
    norm_num
  have h0 : totalWeight (fun _ => (0 : ℝ)) = 0 := by
    simp [totalWeight]
  refine ⟨⟨fun t => ?_, ?_⟩, fun t => (claim_C2 _).2.1 h0 t, (claim_C2 _).2.2.2 h0⟩
  · have := (claim_C2 (fun _ => 1)).1 (by rw [h1]; norm_num) t
    rwa [h1] at this
  · exact (claim_C2 (fun _ => 1)).2.2.1 (by rw [h1]; norm_num)

/-- C4: if any domain/overflow error occurs while the weight table is being
computed (i.e. the `try`-block computation fails, for whatever power
primitive `pw` and wherever the failure happens), the returned mapping is the
all-zero dictionary, never a partial subset of computed weights. -/
theorem claim_C4 (pw : ℝ → ℝ → Except Unit ℝ) (zodiac_luck : ℝ) (e : Unit)
    (h : calculate_rarity_weightsE pw zodiac_luck = .error e) :
    calculate_rarity_weightsPy pw zodiac_luck = zeroWeights := by
  simp [calculate_rarity_weightsPy, h]

/-- A power primitive that always fails, as Python's `**` does on overflow. -/
def failPow : ℝ → ℝ → Except Unit ℝ := fun _ _ => .error ()

/-- Witness for C4: with an always-failing power primitive at luck `1`, the
`try`-block computation fails and the returned table is all-zero. -/
theorem claim_C4_witness :
    calculate_rarity_weightsE failPow 1 = .error ()
    ∧ calculate_rarity_weightsPy failPow 1 = zeroWeights := by
  have h : calculate_rarity_weightsE failPow 1 = .error () := by
    simp only [calculate_rarity_weightsE]
    rw [if_pos (show (1 : ℝ) ≤ 1 ∧ (1 : ℝ) < 2 from ⟨le_refl _, by norm_num⟩)]
    rfl
  exact ⟨h, claim_C4 failPow 1 () h⟩

/-- C6: `calculate_zodiac_luck` returns the luck value itself below `18`,
`(luck - 18) ** 0.3 * 18` from `18` on (in particular `0` at luck `18`), and
`None` when luck is absent. -/
theorem claim_C6 (c : ZodiacCalculator) :
    (∀ l, c.luck = some l →
      (l < 18 → calculate_zodiac_luck c = some l)
      ∧ (18 ≤ l → calculate_zodiac_luck c = some ((l - 18) ^ (0.3 : ℝ) * 18))
      ∧ (l = 18 → calculate_zodiac_luck c = some 0))
    ∧ (c.luck = none → calculate_zodiac_luck c = none) := by
  constructor
  · intro l hl
    refine ⟨fun h18 => ?_, fun h18 => ?_, fun h18 => ?_⟩
    · simp [calculate_zodiac_luck, hl, if_pos h18]
    · simp [calculate_zodiac_luck, hl, if_neg (not_lt.mpr h18)]
    · subst h18
      simp only [calculate_zodiac_luck, hl]
      rw [if_neg (by norm_num : ¬(18 : ℝ) < 18),
        show (18 : ℝ) - 18 = 0 by norm_num,
        Real.zero_rpow (by norm_num : (0.3 : ℝ) ≠ 0)]
      norm_num
  · intro hl
    simp [calculate_zodiac_luck, hl]

/-- Witness for C6: luck `18` present yields zodiac luck `0`; a below-cap
luck `17` is passed through; absent luck yields `None`. -/
theorem claim_C6_witness :
    calculate_zodiac_luck ⟨none, none, none, some 18, none⟩ = some 0
    ∧ calculate_zodiac_luck ⟨none, none, none, some 17, none⟩ = some 17
    ∧ calculate_zodiac_luck ⟨none, none, none, none, none⟩ = none := by
  refine ⟨((claim_C6 _).1 18 rfl).2.2 rfl, ((claim_C6 _).1 17 rfl).1 (by norm_num),
    (claim_C6 _).2 rfl⟩

/-- On and above luck `1`, Uncommon's rising-phase base `20 * 1.5^(L-1) - 12`
is at least `8`, hence positive even without an explicit `max 0` floor. -/
lemma uncommon_base {L : ℝ} (hL : 1 ≤ L) : (8 : ℝ) ≤ 20 * (1.5 : ℝ) ^ (L - 1) - 12 := by
  have h : (1 : ℝ) ≤ (1.5 : ℝ) ^ (L - 1) := Real.one_le_rpow (by norm_num) (by linarith)
  linarith

/-- On and above luck `1`, Rare's rising-phase base `30 * 1.45^(L-1) - 28` is
at least `2`, hence positive even without an explicit `max 0` floor. -/
lemma rare_base {L : ℝ} (hL : 1 ≤ L) : (2 : ℝ) ≤ 30 * (1.45 : ℝ) ^ (L - 1) - 28 := by
  have h : (1 : ℝ) ≤ (1.45 : ℝ) ^ (L - 1) := Real.one_le_rpow (by norm_num) (by linarith)
  linarith

/-- Every tier weight is non-negative, for every real luck value. -/
lemma weights_nonneg (L : ℝ) (t : Tier) : 0 ≤ calculate_rarity_weights L t := by
  cases t <;> simp only [calculate_rarity_weights] <;> try split_ifs with h1 h2
  · positivity
  · positivity
  · exact le_refl 0
  · norm_num
  · positivity
  · exact le_refl 0
  · have := uncommon_base h1.1
    linarith
  · have hb := uncommon_base (show (1 : ℝ) ≤ L by linarith [h2.1])
    exact mul_nonneg (by linarith) (Real.rpow_pos_of_pos (by norm_num) _).le
  · exact le_refl 0
  · have := rare_base h1.1
    linarith
  · have hb := rare_base (show (1 : ℝ) ≤ L by linarith [h2.1])
    exact mul_nonneg (by linarith) (Real.rpow_pos_of_pos (by norm_num) _).le
  · exact le_refl 0
  · exact le_max_left _ _
  · exact mul_nonneg (le_max_left _ _) (Real.rpow_pos_of_pos (by norm_num) _).le
  · exact le_refl 0
  · exact le_max_left _ _
  · exact mul_nonneg (le_max_left _ _) (Real.rpow_pos_of_pos (by norm_num) _).le
  · exact le_refl 0
  · exact le_max_left _ _
  · exact mul_nonneg (le_max_left _ _) (Real.rpow_pos_of_pos (by norm_num) _).le
  · exact le_refl 0
  · exact le_max_left _ _
  · exact mul_nonneg (le_max_left _ _) (Real.rpow_pos_of_pos (by norm_num) _).le
  · exact le_refl 0
  · exact le_max_left _ _
  · exact mul_nonneg (le_max_left _ _) (Real.rpow_pos_of_pos (by norm_num) _).le
  · exact mul_nonneg (mul_nonneg (le_max_left _ _) (Real.rpow_pos_of_pos (by norm_num) _).le)
      (Real.rpow_pos_of_pos (by norm_num) _).le
  · exact le_refl 0
  · exact le_max_left _ _

/-- C7: every one of the ten tier weights returned by
`calculate_rarity_weights` is non-negative for every real `zodiacLuck`,
including the unfloored rising formulas of Uncommon and Rare. -/
theorem claim_C7 (L : ℝ) (t : Tier) : 0 ≤ calculate_rarity_weights L t :=
  weights_nonneg L t

/-- C8: at each decay breakpoint of a tier's range structure, the value the
weight function takes at the breakpoint (via the higher range's formula, whose
added decay factor has exponent `L - breakpoint` and hence equals `1` there)
coincides with the lower range's formula evaluated at the breakpoint: the
piecewise definition is continuous across each formula-to-formula breakpoint
(Garbage 2, Common 2, Uncommon 3, Rare 5, Epic 8, Legendary 12, Mythic 20,
Godly 30, Divine 40 and 50). -/
theorem claim_C8 :
    calculate_rarity_weights 2 .Garbage = 5 * (0.8 : ℝ) ^ ((2 : ℝ) - 1)
    ∧ calculate_rarity_weights 2 .Common = 15
    ∧ calculate_rarity_weights 3 .Uncommon = 20 * (1.5 : ℝ) ^ ((3 : ℝ) - 1) - 12
    ∧ calculate_rarity_weights 5 .Rare = 30 * (1.45 : ℝ) ^ ((5 : ℝ) - 1) - 28
    ∧ calculate_rarity_weights 8 .Epic = max 0 (45 * (1.4 : ℝ) ^ ((8 : ℝ) - 2) - 50)
    ∧ calculate_rarity_weights 12 .Legendary
        = max 0 (80 * (1.36 : ℝ) ^ ((12 : ℝ) - 3) - 100)
    ∧ calculate_rarity_weights 20 .Mythic
        = max 0 (120 * (1.3 : ℝ) ^ ((20 : ℝ) - 5) - 140)
    ∧ calculate_rarity_weights 30 .Godly
        = max 0 (150 * (1.25 : ℝ) ^ ((30 : ℝ) - 8) - 200)
    ∧ calculate_rarity_weights 40 .Divine
        = max 0 (200 * (1.2 : ℝ) ^ ((40 : ℝ) - 12) - 300)
    ∧ calculate_rarity_weights 50 .Divine
        = max 0 (200 * (1.2 : ℝ) ^ ((50 : ℝ) - 12) - 300) * (0.92 : ℝ) ^ ((50 : ℝ) - 40) := by
  refine ⟨?_, ?_, ?_, ?_, ?_, ?_, ?_, ?_, ?_, ?_⟩ <;>
    simp only [calculate_rarity_weights]
  · rw [if_neg (by norm_num), if_pos (by norm_num)]
    norm_num [Real.rpow_zero]
  · rw [if_neg (by norm_num), if_pos (by norm_num)]
    norm_num [Real.rpow_zero]
  · rw [if_neg (by norm_num), if_pos (by norm_num)]
    norm_num [Real.rpow_zero]
  · rw [if_neg (by norm_num), if_pos (by norm_num)]
    norm_num [Real.rpow_zero]
  · rw [if_neg (by norm_num), if_pos (by norm_num)]
    norm_num [Real.rpow_zero]
  · rw [if_neg (by norm_num), if_pos (by norm_num)]
    norm_num [Real.rpow_zero]
  · rw [if_neg (by norm_num), if_pos (by norm_num)]
    norm_num [Real.rpow_zero]
  · rw [if_neg (by norm_num), if_pos (by norm_num)]
    norm_num [Real.rpow_zero]
  · rw [if_neg (by norm_num), if_pos (by norm_num)]
    norm_num [Real.rpow_zero]
  · rw [if_neg (by norm_num), if_neg (by norm_num), if_pos (by norm_num)]
    norm_num [Real.rpow_zero]

/-- Monotonicity of `rpow` in the exponent, with a natural-number power as
the lower bound so that `norm_num` can evaluate it. -/
lemma natpow_le_rpow {c : ℝ} (hc : 1 ≤ c) {n : ℕ} {e : ℝ} (he : (n : ℝ) ≤ e) :
    c ^ n ≤ c ^ e := by
  rw [← Real.rpow_natCast c n]
  exact Real.rpow_le_rpow_of_exponent_le hc he

/-- Common's weight is strictly positive on `[1, 5)`. -/
lemma common_pos {L : ℝ} (hL : 1 ≤ L) (h5 : L < 5) :
    0 < calculate_rarity_weights L .Common := by
  simp only [calculate_rarity_weights]
  split_ifs with h1 h2
  · norm_num
  · positivity
  · exfalso
    rcases not_and_or.mp h1 with h | h
    · exact h hL
    · exact h2 ⟨not_lt.mp h, h5⟩

/-- Rare's weight is strictly positive on `[5, 12)`. -/
lemma rare_pos {L : ℝ} (hL : 5 ≤ L) (h12 : L < 12) :
    0 < calculate_rarity_weights L .Rare := by
  simp only [calculate_rarity_weights]
  split_ifs with h1 h2
  · linarith [h1.2]
  · have hb := rare_base (show (1 : ℝ) ≤ L by linarith)
    exact mul_pos (by linarith) (Real.rpow_pos_of_pos (by norm_num) _)
  · exact absurd ⟨hL, h12⟩ h2

/-- Legendary's weight is strictly positive on `[12, 30)`. -/
lemma legendary_pos {L : ℝ} (hL : 12 ≤ L) (h30 : L < 30) :
    0 < calculate_rarity_weights L .Legendary := by
  simp only [calculate_rarity_weights]
  split_ifs with h1 h2
  · linarith [h1.2]
  · have hp : (1.36 : ℝ) ^ (9 : ℕ) ≤ (1.36 : ℝ) ^ (L - 3) :=
      natpow_le_rpow (by norm_num) (by push_cast; linarith)
    have hb : (0 : ℝ) < 80 * (1.36 : ℝ) ^ (L - 3) - 100 := by
      norm_num at hp
      linarith
    exact mul_pos (lt_max_iff.mpr (Or.inr hb)) (Real.rpow_pos_of_pos (by norm_num) _)
  · exact absurd ⟨hL, h30⟩ h2

/-- Godly's weight is strictly positive on `[30, 60)`. -/
lemma godly_pos {L : ℝ} (hL : 30 ≤ L) (h60 : L < 60) :
    0 < calculate_rarity_weights L .Godly := by
  simp only [calculate_rarity_weights]
  split_ifs with h1 h2
  · linarith [h1.2]
  · have hp : (1.25 : ℝ) ^ (22 : ℕ) ≤ (1.25 : ℝ) ^ (L - 8) :=
      natpow_le_rpow (by norm_num) (by push_cast; linarith)
    have hb : (0 : ℝ) < 150 * (1.25 : ℝ) ^ (L - 8) - 200 := by
      norm_num at hp
      linarith
    exact mul_pos (lt_max_iff.mpr (Or.inr hb)) (Real.rpow_pos_of_pos (by norm_num) _)
  · exact absurd ⟨hL, h60⟩ h2

/-- Divine's weight is strictly positive on `[50, 70)`. -/
lemma divine_pos {L : ℝ} (hL : 50 ≤ L) (h70 : L < 70) :
    0 < calculate_rarity_weights L .Divine := by
  simp only [calculate_rarity_weights]
  split_ifs with h1 h2 h3
  · linarith [h1.2]
  · linarith [h2.2]
  · have hp : (1.2 : ℝ) ^ (38 : ℕ) ≤ (1.2 : ℝ) ^ (L - 12) :=
      natpow_le_rpow (by norm_num) (by push_cast; linarith)
    have hb : (0 : ℝ) < 200 * (1.2 : ℝ) ^ (L - 12) - 300 := by
      norm_num at hp
      linarith
    exact mul_pos
      (mul_pos (lt_max_iff.mpr (Or.inr hb)) (Real.rpow_pos_of_pos (by norm_num) _))
      (Real.rpow_pos_of_pos (by norm_num) _)
  · exact absurd ⟨hL, h70⟩ h3

/-- Immortal's weight is strictly positive from `70` on. -/
lemma immortal_pos {L : ℝ} (hL : 70 ≤ L) :
    0 < calculate_rarity_weights L .Immortal := by
  simp only [calculate_rarity_weights]
  have hp : (1.1 : ℝ) ^ (50 : ℕ) ≤ (1.1 : ℝ) ^ (L - 20) :=
    natpow_le_rpow (by norm_num) (by push_cast; linarith)
  have hb : (0 : ℝ) < 300 * (1.1 : ℝ) ^ (L - 20) - 500 := by
    norm_num at hp
    linarith
  exact lt_max_iff.mpr (Or.inr hb)

/-- The positive regions of the tiers jointly cover `[1, ∞)`. -/
lemma exists_tier_pos {L : ℝ} (hL : 1 ≤ L) :
    ∃ t, 0 < calculate_rarity_weights L t := by
  rcases lt_or_le L 5 with h | h5
  · exact ⟨.Common, common_pos hL h⟩
  rcases lt_or_le L 12 with h | h12
  · exact ⟨.Rare, rare_pos h5 h⟩
  rcases lt_or_le L 30 with h | h30
  · exact ⟨.Legendary, legendary_pos h12 h⟩
  rcases lt_or_le L 50 with h | h50
  · exact ⟨.Godly, godly_pos h30 (by linarith)⟩
  rcases lt_or_le L 70 with h | h70
  · exact ⟨.Divine, divine_pos h50 h⟩
  · exact ⟨.Immortal, immortal_pos h70⟩

/-- The total weight is strictly positive for every luck value `≥ 1`. -/
lemma total_weight_pos {L : ℝ} (hL : 1 ≤ L) :
    0 < totalWeight (calculate_rarity_weights L) := by
  obtain ⟨t, ht⟩ := exists_tier_pos hL
  simp only [totalWeight]
  cases t <;>
    linarith [weights_nonneg L .Garbage, weights_nonneg L .Common,
      weights_nonneg L .Uncommon, weights_nonneg L .Rare, weights_nonneg L .Epic,
      weights_nonneg L .Legendary, weights_nonneg L .Mythic, weights_nonneg L .Godly,
      weights_nonneg L .Divine, weights_nonneg L .Immortal]

/-- C10: for every `zodiacLuck ≥ 1` at least one tier weight is strictly
positive — the positive regions jointly cover `[1, ∞)` — so the total weight
is strictly positive and the chances computed from it sum to exactly `100`
instead of falling into the all-zero branch. -/
theorem claim_C10 (L : ℝ) (hL : 1 ≤ L) :
    (∃ t, 0 < calculate_rarity_weights L t)
    ∧ 0 < totalWeight (calculate_rarity_weights L)
    ∧ totalWeight (calculate_rarity_chances (calculate_rarity_weights L)) = 100 :=
  ⟨exists_tier_pos hL, total_weight_pos hL, chances_sum_100 (total_weight_pos hL)⟩

/-- Witness for C10 at luck `1`. -/
theorem claim_C10_witness :
    (1 : ℝ) ≤ 1
    ∧ ((∃ t, 0 < calculate_rarity_weights 1 t)
      ∧ 0 < totalWeight (calculate_rarity_weights 1)
      ∧ totalWeight (calculate_rarity_chances (calculate_rarity_weights 1)) = 100) :=
  ⟨le_refl 1, claim_C10 1 (le_refl 1)⟩

/-- Splitting a shifted exponent at a breakpoint: `c^(L-s) = c^(bp-s) * c^(L-bp)`. -/
lemma rpow_shift {c : ℝ} (hc : 0 < c) (L s bp : ℝ) :
    c ^ (L - s) = c ^ (bp - s) * c ^ (L - bp) := by
  rw [← Real.rpow_add hc]
  congr 1
  ring

/-- Core monotone-decay lemma: a function `t ↦ A * a^t - B * b^t` with
`0 < b ≤ a ≤ 1` is antitone on `t ≥ 0` provided `a ≤ b^(3/10)` (stated as the
`norm_num`-checkable `a^10 ≤ b^3`) and `B ≤ A * (3/10)`.  The proof bounds
`a^d` by `(b^d)^(3/10)` and applies Bernoulli's inequality for exponents
`≤ 1`. -/
lemma decay_core_antitone (A B a b : ℝ) (hA : 0 < A) (_hB : 0 ≤ B)
    (hb : 0 < b) (hba : b ≤ a) (ha1 : a ≤ 1)
    (hpow : a ^ (10 : ℕ) ≤ b ^ (3 : ℕ))
    (hAB : B ≤ A * (3 / 10))
    (t1 t2 : ℝ) (ht1 : 0 ≤ t1) (ht12 : t1 ≤ t2) :
    A * a ^ t2 - B * b ^ t2 ≤ A * a ^ t1 - B * b ^ t1 := by
  have ha : 0 < a := lt_of_lt_of_le hb hba
  have hd0 : 0 ≤ t2 - t1 := by linarith
  have hsa : a ^ t2 = a ^ t1 * a ^ (t2 - t1) := by
    rw [← Real.rpow_add ha]
    congr 1
    ring
  have hsb : b ^ t2 = b ^ t1 * b ^ (t2 - t1) := by
    rw [← Real.rpow_add hb]
    congr 1
    ring
  have hx0 : 0 < b ^ (t2 - t1) := Real.rpow_pos_of_pos hb _
  have hx1 : b ^ (t2 - t1) ≤ 1 := Real.rpow_le_one hb.le (hba.trans ha1) hd0
  have had1 : a ^ (t2 - t1) ≤ 1 := Real.rpow_le_one ha.le ha1 hd0
  have ha10 : ((a ^ (10 : ℕ) : ℝ)) ^ ((1 : ℝ) / 10) = a := by
    rw [← Real.rpow_natCast a 10, ← Real.rpow_mul ha.le]
    norm_num
  have hb3 : ((b ^ (3 : ℕ) : ℝ)) ^ ((1 : ℝ) / 10) = b ^ ((3 : ℝ) / 10) := by
    rw [← Real.rpow_natCast b 3, ← Real.rpow_mul hb.le]
    norm_num
  have hab : a ≤ b ^ ((3 : ℝ) / 10) := by
    calc a = ((a ^ (10 : ℕ) : ℝ)) ^ ((1 : ℝ) / 10) := ha10.symm
      _ ≤ ((b ^ (3 : ℕ) : ℝ)) ^ ((1 : ℝ) / 10) :=
          Real.rpow_le_rpow (by positivity) hpow (by norm_num)
      _ = b ^ ((3 : ℝ) / 10) := hb3
  have hadx : a ^ (t2 - t1) ≤ (b ^ (t2 - t1)) ^ ((3 : ℝ) / 10) := by
    have h1 : a ^ (t2 - t1) ≤ (b ^ ((3 : ℝ) / 10)) ^ (t2 - t1) :=
      Real.rpow_le_rpow ha.le hab hd0
    have h2 : (b ^ ((3 : ℝ) / 10)) ^ (t2 - t1) = (b ^ (t2 - t1)) ^ ((3 : ℝ) / 10) := by
      rw [← Real.rpow_mul hb.le, ← Real.rpow_mul hb.le]
      congr 1
      ring
    rw [h2] at h1
    exact h1
  have hbern : (b ^ (t2 - t1)) ^ ((3 : ℝ) / 10)
      ≤ 1 + 3 / 10 * (b ^ (t2 - t1) - 1) := by
    have h := rpow_one_add_le_one_add_mul_self
      (show (-1 : ℝ) ≤ b ^ (t2 - t1) - 1 by linarith)
      (show (0 : ℝ) ≤ (3 : ℝ) / 10 by norm_num)
      (show ((3 : ℝ) / 10) ≤ 1 by norm_num)
    rw [show (1 : ℝ) + (b ^ (t2 - t1) - 1) = b ^ (t2 - t1) by ring] at h
    exact h
  have hkey : B * (1 - b ^ (t2 - t1)) ≤ A * (1 - a ^ (t2 - t1)) := by
    have h1 : (3 / 10 : ℝ) * (1 - b ^ (t2 - t1)) ≤ 1 - a ^ (t2 - t1) := by
      nlinarith [hadx, hbern]
    nlinarith [mul_le_mul_of_nonneg_left h1 hA.le,
      mul_le_mul_of_nonneg_right hAB (show (0 : ℝ) ≤ 1 - b ^ (t2 - t1) by linarith)]
  have hat1 : 0 < a ^ t1 := Real.rpow_pos_of_pos ha _
  have hbt1 : 0 < b ^ t1 := Real.rpow_pos_of_pos hb _
  have hba_t1 : b ^ t1 ≤ a ^ t1 := Real.rpow_le_rpow hb.le hba ht1
  rw [hsa, hsb]
  nlinarith [mul_le_mul_of_nonneg_left hkey hbt1.le,
    mul_le_mul_of_nonneg_right (mul_le_mul_of_nonneg_left hba_t1 hA.le)
      (show (0 : ℝ) ≤ 1 - a ^ (t2 - t1) by linarith)]

/-- Normal form of a decay-zone weight: `(C * c^(L-s) - B) * dec^(L-bp)`
rewritten as `A * a^(L-bp) - B * b^(L-bp)` with `A = C * c^(bp-s)` and
`a = c * dec`, `b = dec`. -/
lemma zone_normal_nomax (C c B dec bp s L : ℝ) (hc : 0 < c) (hdec : 0 ≤ dec) :
    (C * c ^ (L - s) - B) * dec ^ (L - bp)
      = C * c ^ (bp - s) * (c * dec) ^ (L - bp) - B * dec ^ (L - bp) := by
  rw [rpow_shift hc L s bp, Real.mul_rpow hc.le hdec]
  ring

/-- `zone_normal_nomax` through a `max 0` floor whose argument is known to be
non-negative in the decay zone. -/
lemma zone_normal (C c B dec bp s L : ℝ) (hc : 0 < c) (hdec : 0 ≤ dec)
    (hpos : 0 ≤ C * c ^ (L - s) - B) :
    max 0 (C * c ^ (L - s) - B) * dec ^ (L - bp)
      = C * c ^ (bp - s) * (c * dec) ^ (L - bp) - B * dec ^ (L - bp) := by
  rw [max_eq_right hpos, zone_normal_nomax C c B dec bp s L hc hdec]

/-- On and above `8`, Epic's rise base has cleared its floor: `45 * 1.4^(L-2) ≥ 50`. -/
lemma epic_base {L : ℝ} (h : 8 ≤ L) : 0 ≤ 45 * (1.4 : ℝ) ^ (L - 2) - 50 := by
  have hp := natpow_le_rpow (show (1 : ℝ) ≤ 1.4 by norm_num)
    (show ((6 : ℕ) : ℝ) ≤ L - 2 by push_cast; linarith)
  norm_num at hp
  linarith

/-- On and above `12`, Legendary's rise base has cleared its floor. -/
lemma legendary_base {L : ℝ} (h : 12 ≤ L) : 0 ≤ 80 * (1.36 : ℝ) ^ (L - 3) - 100 := by
  have hp := natpow_le_rpow (show (1 : ℝ) ≤ 1.36 by norm_num)
    (show ((9 : ℕ) : ℝ) ≤ L - 3 by push_cast; linarith)
  norm_num at hp
  linarith

/-- On and above `20`, Mythic's rise base has cleared its floor. -/
lemma mythic_base {L : ℝ} (h : 20 ≤ L) : 0 ≤ 120 * (1.3 : ℝ) ^ (L - 5) - 140 := by
  have hp := natpow_le_rpow (show (1 : ℝ) ≤ 1.3 by norm_num)
    (show ((15 : ℕ) : ℝ) ≤ L - 5 by push_cast; linarith)
  norm_num at hp
  linarith

/-- On and above `30`, Godly's rise base has cleared its floor. -/
lemma godly_base {L : ℝ} (h : 30 ≤ L) : 0 ≤ 150 * (1.25 : ℝ) ^ (L - 8) - 200 := by
  have hp := natpow_le_rpow (show (1 : ℝ) ≤ 1.25 by norm_num)
    (show ((22 : ℕ) : ℝ) ≤ L - 8 by push_cast; linarith)
  norm_num at hp
  linarith

/-- On and above `40`, Divine's rise base has cleared its floor. -/
lemma divine_base {L : ℝ} (h : 40 ≤ L) : 0 ≤ 200 * (1.2 : ℝ) ^ (L - 12) - 300 := by
  have hp := natpow_le_rpow (show (1 : ℝ) ≤ 1.2 by norm_num)
    (show ((28 : ℕ) : ℝ) ≤ L - 12 by push_cast; linarith)
  norm_num at hp
  linarith

/-- Garbage in its decay zone `[2,3)`. -/
lemma garbage_zone {L : ℝ} (h : 2 ≤ L ∧ L < 3) :
    calculate_rarity_weights L .Garbage
      = 5 * (0.8 : ℝ) ^ (L - 1) * (0.4 : ℝ) ^ (L - 2) := by
  simp only [calculate_rarity_weights]
  rw [if_neg (by rintro ⟨-, hc⟩; linarith [h.1]), if_pos h]

/-- Garbage is zero from `3` on. -/
lemma garbage_beyond {L : ℝ} (h : 3 ≤ L) :
    calculate_rarity_weights L .Garbage = 0 := by
  simp only [calculate_rarity_weights]
  rw [if_neg (by rintro ⟨-, hc⟩; linarith), if_neg (by rintro ⟨-, hc⟩; linarith)]

/-- Garbage's weight is non-increasing from its decay breakpoint `2` on. -/
lemma garbage_antitone {L1 L2 : ℝ} (h1 : 2 ≤ L1) (h12 : L1 ≤ L2) :
    calculate_rarity_weights L2 .Garbage ≤ calculate_rarity_weights L1 .Garbage := by
  rcases lt_or_le L2 3 with h2 | h2
  · rw [garbage_zone ⟨h1, by linarith⟩, garbage_zone ⟨by linarith, h2⟩]
    have e1 : (0.8 : ℝ) ^ (L2 - 1) ≤ (0.8 : ℝ) ^ (L1 - 1) :=
      Real.rpow_le_rpow_of_exponent_ge (by norm_num) (by norm_num) (by linarith)
    have e2 : (0.4 : ℝ) ^ (L2 - 2) ≤ (0.4 : ℝ) ^ (L1 - 2) :=
      Real.rpow_le_rpow_of_exponent_ge (by norm_num) (by norm_num) (by linarith)
    exact mul_le_mul (mul_le_mul_of_nonneg_left e1 (by norm_num)) e2
      (Real.rpow_pos_of_pos (by norm_num) _).le (by positivity)
  · rw [garbage_beyond h2]
    exact weights_nonneg L1 .Garbage

/-- Common in its decay zone `[2,5)`. -/
lemma common_zone {L : ℝ} (h : 2 ≤ L ∧ L < 5) :
    calculate_rarity_weights L .Common = 15 * (0.45 : ℝ) ^ (L - 2) := by
  simp only [calculate_rarity_weights]
  rw [if_neg (by rintro ⟨-, hc⟩; linarith [h.1]), if_pos h]

/-- Common is zero from `5` on. -/
lemma common_beyond {L : ℝ} (h : 5 ≤ L) :
    calculate_rarity_weights L .Common = 0 := by
  simp only [calculate_rarity_weights]
  rw [if_neg (by rintro ⟨-, hc⟩; linarith), if_neg (by rintro ⟨-, hc⟩; linarith)]

/-- Common's weight is non-increasing from its decay breakpoint `2` on. -/
lemma common_antitone {L1 L2 : ℝ} (h1 : 2 ≤ L1) (h12 : L1 ≤ L2) :
    calculate_rarity_weights L2 .Common ≤ calculate_rarity_weights L1 .Common := by
  rcases lt_or_le L2 5 with h2 | h2
  · rw [common_zone ⟨h1, by linarith⟩, common_zone ⟨by linarith, h2⟩]
    have e : (0.45 : ℝ) ^ (L2 - 2) ≤ (0.45 : ℝ) ^ (L1 - 2) :=
      Real.rpow_le_rpow_of_exponent_ge (by norm_num) (by norm_num) (by linarith)
    exact mul_le_mul_of_nonneg_left e (by norm_num)
  · rw [common_beyond h2]
    exact weights_nonneg L1 .Common

/-- Uncommon in its decay zone `[3,8)`, in `A * a^t - B * b^t` normal form. -/
lemma uncommon_zone {L : ℝ} (h : 3 ≤ L ∧ L < 8) :
    calculate_rarity_weights L .Uncommon
      = 20 * (1.5 : ℝ) ^ (2 : ℕ) * (0.75 : ℝ) ^ (L - 3) - 12 * (0.5 : ℝ) ^ (L - 3) := by
  simp only [calculate_rarity_weights]
  rw [if_neg (by rintro ⟨-, hc⟩; linarith [h.1]), if_pos h,
    zone_normal_nomax 20 1.5 12 0.5 3 1 L (by norm_num) (by norm_num)]
  rw [show (3 : ℝ) - 1 = ((2 : ℕ) : ℝ) by norm_num, Real.rpow_natCast]
  norm_num

/-- Uncommon is zero from `8` on. -/
lemma uncommon_beyond {L : ℝ} (h : 8 ≤ L) :
    calculate_rarity_weights L .Uncommon = 0 := by
  simp only [calculate_rarity_weights]
  rw [if_neg (by rintro ⟨-, hc⟩; linarith), if_neg (by rintro ⟨-, hc⟩; linarith)]

/-- Uncommon's weight is non-increasing from its decay breakpoint `3` on. -/
lemma uncommon_antitone {L1 L2 : ℝ} (h1 : 3 ≤ L1) (h12 : L1 ≤ L2) :
    calculate_rarity_weights L2 .Uncommon ≤ calculate_rarity_weights L1 .Uncommon := by
  rcases lt_or_le L2 8 with h2 | h2
  · rw [uncommon_zone ⟨h1, by linarith⟩, uncommon_zone ⟨by linarith, h2⟩]
    exact decay_core_antitone (20 * (1.5 : ℝ) ^ (2 : ℕ)) 12 0.75 0.5 (by norm_num)
      (by norm_num) (by norm_num) (by norm_num) (by norm_num) (by norm_num) (by norm_num)
      (L1 - 3) (L2 - 3) (by linarith) (by linarith)
  · rw [uncommon_beyond h2]
    exact weights_nonneg L1 .Uncommon

/-- Rare in its decay zone `[5,12)`, in normal form (`1.45 * 0.55 = 0.7975`). -/
lemma rare_zone {L : ℝ} (h : 5 ≤ L ∧ L < 12) :
    calculate_rarity_weights L .Rare
      = 30 * (1.45 : ℝ) ^ (4 : ℕ) * (0.7975 : ℝ) ^ (L - 5) - 28 * (0.55 : ℝ) ^ (L - 5) := by
  simp only [calculate_rarity_weights]
  rw [if_neg (by rintro ⟨-, hc⟩; linarith [h.1]), if_pos h,
    zone_normal_nomax 30 1.45 28 0.55 5 1 L (by norm_num) (by norm_num)]
  rw [show (5 : ℝ) - 1 = ((4 : ℕ) : ℝ) by norm_num, Real.rpow_natCast]
  norm_num

/-- Rare is zero from `12` on. -/
lemma rare_beyond {L : ℝ} (h : 12 ≤ L) :
    calculate_rarity_weights L .Rare = 0 := by
  simp only [calculate_rarity_weights]
  rw [if_neg (by rintro ⟨-, hc⟩; linarith), if_neg (by rintro ⟨-, hc⟩; linarith)]

/-- Rare's weight is non-increasing from its decay breakpoint `5` on. -/
lemma rare_antitone {L1 L2 : ℝ} (h1 : 5 ≤ L1) (h12 : L1 ≤ L2) :
    calculate_rarity_weights L2 .Rare ≤ calculate_rarity_weights L1 .Rare := by
  rcases lt_or_le L2 12 with h2 | h2
  · rw [rare_zone ⟨h1, by linarith⟩, rare_zone ⟨by linarith, h2⟩]
    exact decay_core_antitone (30 * (1.45 : ℝ) ^ (4 : ℕ)) 28 0.7975 0.55 (by norm_num)
      (by norm_num) (by norm_num) (by norm_num) (by norm_num) (by norm_num) (by norm_num)
      (L1 - 5) (L2 - 5) (by linarith) (by linarith)
  · rw [rare_beyond h2]
    exact weights_nonneg L1 .Rare

/-- Epic in its decay zone `[8,20)`, in normal form (`1.4 * 0.6 = 0.84`). -/
lemma epic_zone {L : ℝ} (h : 8 ≤ L ∧ L < 20) :
    calculate_rarity_weights L .Epic
      = 45 * (1.4 : ℝ) ^ (6 : ℕ) * (0.84 : ℝ) ^ (L - 8) - 50 * (0.6 : ℝ) ^ (L - 8) := by
  simp only [calculate_rarity_weights]
  rw [if_neg (by rintro ⟨-, hc⟩; linarith [h.1]), if_pos h,
    zone_normal 45 1.4 50 0.6 8 2 L (by norm_num) (by norm_num) (epic_base h.1)]
  rw [show (8 : ℝ) - 2 = ((6 : ℕ) : ℝ) by norm_num, Real.rpow_natCast]
  norm_num

/-- Epic is zero from `20` on. -/
lemma epic_beyond {L : ℝ} (h : 20 ≤ L) :
    calculate_rarity_weights L .Epic = 0 := by
  simp only [calculate_rarity_weights]
  rw [if_neg (by rintro ⟨-, hc⟩; linarith), if_neg (by rintro ⟨-, hc⟩; linarith)]

/-- Epic's weight is non-increasing from its decay breakpoint `8` on. -/
lemma epic_antitone {L1 L2 : ℝ} (h1 : 8 ≤ L1) (h12 : L1 ≤ L2) :
    calculate_rarity_weights L2 .Epic ≤ calculate_rarity_weights L1 .Epic := by
  rcases lt_or_le L2 20 with h2 | h2
  · rw [epic_zone ⟨h1, by linarith⟩, epic_zone ⟨by linarith, h2⟩]
    exact decay_core_antitone (45 * (1.4 : ℝ) ^ (6 : ℕ)) 50 0.84 0.6 (by norm_num)
      (by norm_num) (by norm_num) (by norm_num) (by norm_num) (by norm_num) (by norm_num)
      (L1 - 8) (L2 - 8) (by linarith) (by linarith)
  · rw [epic_beyond h2]
    exact weights_nonneg L1 .Epic

/-- Legendary in its decay zone `[12,30)`, in normal form (`1.36 * 0.64 = 0.8704`). -/
lemma legendary_zone {L : ℝ} (h : 12 ≤ L ∧ L < 30) :
    calculate_rarity_weights L .Legendary
      = 80 * (1.36 : ℝ) ^ (9 : ℕ) * (0.8704 : ℝ) ^ (L - 12)
        - 100 * (0.64 : ℝ) ^ (L - 12) := by
  simp only [calculate_rarity_weights]
  rw [if_neg (by rintro ⟨-, hc⟩; linarith [h.1]), if_pos h,
    zone_normal 80 1.36 100 0.64 12 3 L (by norm_num) (by norm_num) (legendary_base h.1)]
  rw [show (12 : ℝ) - 3 = ((9 : ℕ) : ℝ) by norm_num, Real.rpow_natCast]
  norm_num

/-- Legendary is zero from `30` on. -/
lemma legendary_beyond {L : ℝ} (h : 30 ≤ L) :
    calculate_rarity_weights L .Legendary = 0 := by
  simp only [calculate_rarity_weights]
  rw [if_neg (by rintro ⟨-, hc⟩; linarith), if_neg (by rintro ⟨-, hc⟩; linarith)]

/-- Legendary's weight is non-increasing from its decay breakpoint `12` on. -/
lemma legendary_antitone {L1 L2 : ℝ} (h1 : 12 ≤ L1) (h12 : L1 ≤ L2) :
    calculate_rarity_weights L2 .Legendary ≤ calculate_rarity_weights L1 .Legendary := by
  rcases lt_or_le L2 30 with h2 | h2
  · rw [legendary_zone ⟨h1, by linarith⟩, legendary_zone ⟨by linarith, h2⟩]
    exact decay_core_antitone (80 * (1.36 : ℝ) ^ (9 : ℕ)) 100 0.8704 0.64 (by norm_num)
      (by norm_num) (by norm_num) (by norm_num) (by norm_num) (by norm_num) (by norm_num)
      (L1 - 12) (L2 - 12) (by linarith) (by linarith)
  · rw [legendary_beyond h2]
    exact weights_nonneg L1 .Legendary

/-- Mythic in its decay zone `[20,50)`, in normal form (`1.3 * 0.67 = 0.871`). -/
lemma mythic_zone {L : ℝ} (h : 20 ≤ L ∧ L < 50) :
    calculate_rarity_weights L .Mythic
      = 120 * (1.3 : ℝ) ^ (15 : ℕ) * (0.871 : ℝ) ^ (L - 20)
        - 140 * (0.67 : ℝ) ^ (L - 20) := by
  simp only [calculate_rarity_weights]
  rw [if_neg (by rintro ⟨-, hc⟩; linarith [h.1]), if_pos h,
    zone_normal 120 1.3 140 0.67 20 5 L (by norm_num) (by norm_num) (mythic_base h.1)]
  rw [show (20 : ℝ) - 5 = ((15 : ℕ) : ℝ) by norm_num, Real.rpow_natCast]
  norm_num

/-- Mythic is zero from `50` on. -/
lemma mythic_beyond {L : ℝ} (h : 50 ≤ L) :
    calculate_rarity_weights L .Mythic = 0 := by
  simp only [calculate_rarity_weights]
  rw [if_neg (by rintro ⟨-, hc⟩; linarith), if_neg (by rintro ⟨-, hc⟩; linarith)]

/-- Mythic's weight is non-increasing from its decay breakpoint `20` on. -/
lemma mythic_antitone {L1 L2 : ℝ} (h1 : 20 ≤ L1) (h12 : L1 ≤ L2) :
    calculate_rarity_weights L2 .Mythic ≤ calculate_rarity_weights L1 .Mythic := by
  rcases lt_or_le L2 50 with h2 | h2
  · rw [mythic_zone ⟨h1, by linarith⟩, mythic_zone ⟨by linarith, h2⟩]
    exact decay_core_antitone (120 * (1.3 : ℝ) ^ (15 : ℕ)) 140 0.871 0.67 (by norm_num)
      (by norm_num) (by norm_num) (by norm_num) (by norm_num) (by norm_num) (by norm_num)
      (L1 - 20) (L2 - 20) (by linarith) (by linarith)
  · rw [mythic_beyond h2]
    exact weights_nonneg L1 .Mythic

/-- Godly in its decay zone `[30,60)`, in normal form (`1.25 * 0.7 = 0.875`). -/
lemma godly_zone {L : ℝ} (h : 30 ≤ L ∧ L < 60) :
    calculate_rarity_weights L .Godly
      = 150 * (1.25 : ℝ) ^ (22 : ℕ) * (0.875 : ℝ) ^ (L - 30)
        - 200 * (0.7 : ℝ) ^ (L - 30) := by
  simp only [calculate_rarity_weights]
  rw [if_neg (by rintro ⟨-, hc⟩; linarith [h.1]), if_pos h,
    zone_normal 150 1.25 200 0.7 30 8 L (by norm_num) (by norm_num) (godly_base h.1)]
  rw [show (30 : ℝ) - 8 = ((22 : ℕ) : ℝ) by norm_num, Real.rpow_natCast]
  norm_num

/-- Godly is zero from `60` on. -/
lemma godly_beyond {L : ℝ} (h : 60 ≤ L) :
    calculate_rarity_weights L .Godly = 0 := by
  simp only [calculate_rarity_weights]
  rw [if_neg (by rintro ⟨-, hc⟩; linarith), if_neg (by rintro ⟨-, hc⟩; linarith)]

/-- Godly's weight is non-increasing from its decay breakpoint `30` on. -/
lemma godly_antitone {L1 L2 : ℝ} (h1 : 30 ≤ L1) (h12 : L1 ≤ L2) :
    calculate_rarity_weights L2 .Godly ≤ calculate_rarity_weights L1 .Godly := by
  rcases lt_or_le L2 60 with h2 | h2
  · rw [godly_zone ⟨h1, by linarith⟩, godly_zone ⟨by linarith, h2⟩]
    exact decay_core_antitone (150 * (1.25 : ℝ) ^ (22 : ℕ)) 200 0.875 0.7 (by norm_num)
      (by norm_num) (by norm_num) (by norm_num) (by norm_num) (by norm_num) (by norm_num)
      (L1 - 30) (L2 - 30) (by linarith) (by linarith)
  · rw [godly_beyond h2]
    exact weights_nonneg L1 .Godly

/-- Divine in its second decay zone `[50,70)`, in normal form
(`1.2 * 0.92 * 0.75 = 0.828` and `0.92 * 0.75 = 0.69`). -/
lemma divine_zone2 {L : ℝ} (h : 50 ≤ L ∧ L < 70) :
    calculate_rarity_weights L .Divine
      = 200 * (1.2 : ℝ) ^ (38 : ℕ) * (0.92 : ℝ) ^ (10 : ℕ) * (0.828 : ℝ) ^ (L - 50)
        - 300 * (0.92 : ℝ) ^ (10 : ℕ) * (0.69 : ℝ) ^ (L - 50) := by
  simp only [calculate_rarity_weights]
  rw [if_neg (by rintro ⟨-, hc⟩; linarith [h.1]), if_neg (by rintro ⟨-, hc⟩; linarith [h.1]),
    if_pos h, max_eq_right (divine_base (by linarith [h.1]))]
  rw [rpow_shift (show (0 : ℝ) < 1.2 by norm_num) L 12 50,
    rpow_shift (show (0 : ℝ) < 0.92 by norm_num) L 40 50]
  rw [show (50 : ℝ) - 12 = ((38 : ℕ) : ℝ) by norm_num, Real.rpow_natCast,
    show (50 : ℝ) - 40 = ((10 : ℕ) : ℝ) by norm_num, Real.rpow_natCast]
  have hc1 : (1.2 : ℝ) ^ (L - 50) * (0.92 : ℝ) ^ (L - 50) * (0.75 : ℝ) ^ (L - 50)
      = (0.828 : ℝ) ^ (L - 50) := by
    rw [← Real.mul_rpow (by norm_num) (by norm_num), ← Real.mul_rpow (by norm_num) (by norm_num)]
    norm_num
  have hc2 : (0.92 : ℝ) ^ (L - 50) * (0.75 : ℝ) ^ (L - 50) = (0.69 : ℝ) ^ (L - 50) := by
    rw [← Real.mul_rpow (by norm_num) (by norm_num)]
    norm_num
  linear_combination (200 * (1.2 : ℝ) ^ (38 : ℕ) * (0.92 : ℝ) ^ (10 : ℕ)) * hc1
    - 300 * (0.92 : ℝ) ^ (10 : ℕ) * hc2

/-- Divine is zero from `70` on. -/
lemma divine_beyond {L : ℝ} (h : 70 ≤ L) :
    calculate_rarity_weights L .Divine = 0 := by
  simp only [calculate_rarity_weights]
  rw [if_neg (by rintro ⟨-, hc⟩; linarith), if_neg (by rintro ⟨-, hc⟩; linarith),
    if_neg (by rintro ⟨-, hc⟩; linarith)]

/-- Divine's weight is non-increasing from its *second* breakpoint `50` on. -/
lemma divine_antitone {L1 L2 : ℝ} (h1 : 50 ≤ L1) (h12 : L1 ≤ L2) :
    calculate_rarity_weights L2 .Divine ≤ calculate_rarity_weights L1 .Divine := by
  rcases lt_or_le L2 70 with h2 | h2
  · rw [divine_zone2 ⟨h1, by linarith⟩, divine_zone2 ⟨by linarith, h2⟩]
    exact decay_core_antitone
      (200 * (1.2 : ℝ) ^ (38 : ℕ) * (0.92 : ℝ) ^ (10 : ℕ))
      (300 * (0.92 : ℝ) ^ (10 : ℕ)) 0.828 0.69 (by norm_num)
      (by norm_num) (by norm_num) (by norm_num) (by norm_num) (by norm_num) (by norm_num)
      (L1 - 50) (L2 - 50) (by linarith) (by linarith)
  · rw [divine_beyond h2]
    exact weights_nonneg L1 .Divine

/-- Each tier's first decay breakpoint (the end of its rise phase), as the
claim reads the range structure: the left end of the first range that carries
an added decay factor.  `Immortal` has a single ungated formula and hence no
decay breakpoint. -/
def decayStart : Tier → Option ℝ := fun t =>
  match t with
  | .Garbage => some 2
  | .Common => some 2
  | .Uncommon => some 3
  | .Rare => some 5
  | .Epic => some 8
  | .Legendary => some 12
  | .Mythic => some 20
  | .Godly => some 30
  | .Divine => some 40
  | .Immortal => none

/-- The breakpoints from which each tier's weight really is non-increasing:
identical to `decayStart` except for Divine, whose weight still *rises* on
`[40,50)` (its first decay factor `0.92^(L-40)` is outrun by the rise factor
`1.2^(L-12)`, as `1.2 * 0.92 = 1.104 > 1`) and only decays from `50` on. -/
def amendedDecayStart : Tier → Option ℝ := fun t =>
  match t with
  | .Garbage => some 2
  | .Common => some 2
  | .Uncommon => some 3
  | .Rare => some 5
  | .Epic => some 8
  | .Legendary => some 12
  | .Mythic => some 20
  | .Godly => some 30
  | .Divine => some 50
  | .Immortal => none

/-- C9 counterexample: the claim fails for Divine at its first decay
breakpoint `40`: with `L1 = 40 ≤ L2 = 45`, both at or beyond the breakpoint,
the weight at `45` is strictly *greater* than at `40`. -/
theorem claim_C9_counterexample :
    decayStart Tier.Divine = some 40
    ∧ (40 : ℝ) ≤ 40 ∧ (40 : ℝ) ≤ 45
    ∧ calculate_rarity_weights 40 Tier.Divine < calculate_rarity_weights 45 Tier.Divine := by
  refine ⟨rfl, le_refl _, by norm_num, ?_⟩
  simp only [calculate_rarity_weights]
  rw [if_neg (by norm_num), if_pos (by norm_num), if_neg (by norm_num), if_pos (by norm_num)]
  rw [show (40 : ℝ) - 12 = ((28 : ℕ) : ℝ) by norm_num, Real.rpow_natCast,
    show (40 : ℝ) - 40 = (0 : ℝ) by norm_num, Real.rpow_zero,
    show (45 : ℝ) - 12 = ((33 : ℕ) : ℝ) by norm_num, Real.rpow_natCast,
    show (45 : ℝ) - 40 = ((5 : ℕ) : ℝ) by norm_num, Real.rpow_natCast]
  rw [max_eq_right (by norm_num : (0 : ℝ) ≤ 200 * (1.2 : ℝ) ^ (28 : ℕ) - 300),
    max_eq_right (by norm_num : (0 : ℝ) ≤ 200 * (1.2 : ℝ) ^ (33 : ℕ) - 300)]
  norm_num

/-- C9 (amended): for every tier with a decay breakpoint, and for Divine
measuring from its second breakpoint `50` rather than `40`, the weight is
non-increasing at and beyond the breakpoint: increasing `zodiacLuck` there
never increases the tier's weight. -/
theorem claim_C9_amended (t : Tier) (bp : ℝ) (hbp : amendedDecayStart t = some bp)
    (L1 L2 : ℝ) (hL1 : bp ≤ L1) (hL12 : L1 ≤ L2) :
    calculate_rarity_weights L2 t ≤ calculate_rarity_weights L1 t := by
  cases t <;> simp only [amendedDecayStart, Option.some.injEq] at hbp
  · subst hbp
    exact garbage_antitone hL1 hL12
  · subst hbp
    exact common_antitone hL1 hL12
  · subst hbp
    exact uncommon_antitone hL1 hL12
  · subst hbp
    exact rare_antitone hL1 hL12
  · subst hbp
    exact epic_antitone hL1 hL12
  · subst hbp
    exact legendary_antitone hL1 hL12
  · subst hbp
    exact mythic_antitone hL1 hL12
  · subst hbp
    exact godly_antitone hL1 hL12
  · subst hbp
    exact divine_antitone hL1 hL12
  · exact Option.noConfusion hbp

/-- Witness for the amended C9 at Garbage with `L1 = 2`, `L2 = 3`. -/
theorem claim_C9_amended_witness :
    amendedDecayStart Tier.Garbage = some 2 ∧ (2 : ℝ) ≤ 2 ∧ (2 : ℝ) ≤ 3
    ∧ calculate_rarity_weights 3 Tier.Garbage ≤ calculate_rarity_weights 2 Tier.Garbage :=
  ⟨rfl, le_refl _, by norm_num,
    claim_C9_amended Tier.Garbage 2 rfl 2 3 (le_refl _) (by norm_num)⟩

/-- If a `pypow` result multiplied by a real came out real, the power was the
real power (the complex branch can never produce a real-tagged value). -/
lemma pypow_mul_real {b e m v : ℝ} (h : (pypow b e).mul (.r m) = .r v) :
    v = b ^ e * m := by
  unfold pypow at h
  split_ifs at h with hc
  · simp only [PyNum.mul] at h
    exact PyNum.noConfusion h
  · simp only [PyNum.mul] at h
    injection h with h'
    exact h'.symm

/-- C5: whenever rarity, quality and level are all present and the sale-price
calculation succeeds with a real value `v`, the score calculation succeeds
with the §4.1 score and `v = (score/10)^0.75 * 1.1^rarity`. -/
theorem claim_C5 (c : ZodiacCalculator) (r q l : ℝ)
    (hr : c.zodiac_rarity = some r) (hq : c.zodiac_quality = some q)
    (hl : c.zodiac_level = some l) (v : ℝ)
    (hv : calculate_zodiac_sale_price c = some (.r v)) :
    ∃ s, calculate_zodiac_score c = some s
      ∧ s = (1.125 : ℝ) ^ r * q * (9 + l ^ 2) * (if 8 < r then 2 else 1)
          * (if 100 ≤ l then ((l - 90) / 10) ^ (2.5 : ℝ) else 1)
      ∧ v = (s / 10) ^ (0.75 : ℝ) * (1.1 : ℝ) ^ r := by
  simp only [calculate_zodiac_sale_price, hr, hq, hl, Option.some.injEq] at hv
  have hv' := pypow_mul_real hv
  refine ⟨_, ?_, rfl, ?_⟩
  · simp only [calculate_zodiac_score, hr, hq, hl]
  · exact hv'

/-- The sale price the source computes at rarity `9`, quality `10`,
level `50` (the worked example of spec §8). -/
noncomputable def salePriceExample : ℝ :=
  ((1.125 : ℝ) ^ (9 : ℝ) * 10 * (9 + (50 : ℝ) ^ 2) * 2 * 1 / 10) ^ (0.75 : ℝ)
    * (1.1 : ℝ) ^ (9 : ℝ)

/-- Witness for C5 at rarity `9`, quality `10`, level `50`. -/
theorem claim_C5_witness :
    ∃ s, calculate_zodiac_score ⟨some 9, some 10, some 50, none, none⟩ = some s
      ∧ s = (1.125 : ℝ) ^ (9 : ℝ) * 10 * (9 + (50 : ℝ) ^ 2)
          * (if (8 : ℝ) < 9 then 2 else 1)
          * (if (100 : ℝ) ≤ 50 then (((50 : ℝ) - 90) / 10) ^ (2.5 : ℝ) else 1)
      ∧ salePriceExample = (s / 10) ^ (0.75 : ℝ) * (1.1 : ℝ) ^ (9 : ℝ) := by
  have hv5 : calculate_zodiac_sale_price ⟨some 9, some 10, some 50, none, none⟩
      = some (PyNum.r salePriceExample) := by
    simp only [calculate_zodiac_sale_price]
    rw [if_pos (by norm_num : (8 : ℝ) < 9), if_neg (by norm_num : ¬(100 : ℝ) ≤ 50)]
    simp only [pypow]
    rw [if_neg (show ¬((1.125 : ℝ) ^ (9 : ℝ) * 10 * (9 + (50 : ℝ) ^ 2) * 2 * 1 / 10 < 0
        ∧ ¬∃ n : ℤ, (0.75 : ℝ) = (n : ℝ)) by
      rintro ⟨hneg, -⟩
      have hpos : (0 : ℝ) ≤ (1.125 : ℝ) ^ (9 : ℝ) * 10 * (9 + (50 : ℝ) ^ 2) * 2 * 1 / 10 := by
        positivity
      linarith)]
    simp only [PyNum.mul]
    rfl
  exact claim_C5 _ 9 10 50 rfl rfl rfl salePriceExample hv5

/-- C3 is violated by the code: at rarity `0`, quality `-1`, level `0` the
base of `** 0.75` is `-0.9`, and Python's float `**` on a negative base with
a fractional exponent returns a *complex* number instead of raising the
`ValueError` the `except` clause is waiting for.  The sale price therefore
comes back as a complex value with strictly positive imaginary part — a
non-real result propagated to the caller, contradicting both the claim and
the function's own `Optional[float]` contract. -/
theorem claim_C3_code_bug :
    ∃ z : ℂ, calculate_zodiac_sale_price ⟨some 0, some (-1), some 0, none, none⟩
        = some (.c z) ∧ 0 < z.im := by
  have hB : (1.125 : ℝ) ^ (0 : ℝ) * (-1) * (9 + (0 : ℝ) ^ 2)
      * (if (8 : ℝ) < 0 then 2 else 1)
      * (if (100 : ℝ) ≤ 0 then (((0 : ℝ) - 90) / 10) ^ (2.5 : ℝ) else 1) / 10
      = -(9 / 10) := by
    rw [if_neg (by norm_num), if_neg (by norm_num), Real.rpow_zero]
    norm_num
  have hfrac : ¬∃ n : ℤ, (0.75 : ℝ) = (n : ℝ) := by
    rintro ⟨n, hn⟩
    have h4 : ((4 * n : ℤ) : ℝ) = 3 := by push_cast; linarith
    have h4' : (4 * n : ℤ) = 3 := by exact_mod_cast h4
    omega
  simp only [calculate_zodiac_sale_price]
  rw [hB, Real.rpow_zero]
  simp only [pypow]
  rw [if_pos (⟨by norm_num, hfrac⟩ : (-(9 / 10 : ℝ) < 0 ∧ ¬∃ n : ℤ, (0.75 : ℝ) = (n : ℝ)))]
  simp only [PyNum.mul]
  refine ⟨_, rfl, ?_⟩
  rw [Complex.ofReal_one, mul_one]
  have hw : ((-(9 / 10 : ℝ) : ℝ) : ℂ) ≠ 0 := Complex.ofReal_ne_zero.mpr (by norm_num)
  rw [Complex.cpow_def_of_ne_zero hw, Complex.exp_im]
  have hIm : (Complex.log ((-(9 / 10 : ℝ) : ℝ) : ℂ) * (((0.75 : ℝ) : ℝ) : ℂ)).im
      = Real.pi * 0.75 := by
    simp only [Complex.mul_im, Complex.log_im, Complex.ofReal_re, Complex.ofReal_im,
      mul_zero, zero_add, mul_eq_mul_right_iff]
    left
    rw [show ((-(9 / 10 : ℝ) : ℝ) : ℂ) = ((-(9 / 10) : ℝ) : ℂ) by norm_num]
    exact Complex.arg_ofReal_of_neg (by norm_num)
  rw [hIm]
  have hπ := Real.pi_pos
  exact mul_pos (Real.exp_pos _)
    (Real.sin_pos_of_pos_of_lt_pi (by linarith) (by linarith))

end Zodiac
